import Mathlib

/-!
Verification development for the battle-server repository.

The manager layer (`src/BattleManager.js`) and the ingress layer
(`src/Server.js`, legacy server variants) are embedded shallowly below.
Wall-clock times are modelled as integers in milliseconds (`Date.now()`
values).  The Rust WASM simulator (`battle-core/pkg/battle_core.js`) is not
part of the repository sources; its query and mutation interface is modelled
from the specification, and its per-tick transition (`simulate_tick`) is kept
abstract as a step function parameter.
-/

namespace BattleServer

/-- One unit record as held inside the simulator.  Only the fields the
manager layer observes (`id`, `faction_id`, `alive`) together with the
spec-level position and target fields are modelled. -/
structure SimUnit where
  id : Nat
  faction_id : Nat
  alive : Bool
  x : Int
  y : Int
  z : Int
  target_id : Option Nat
deriving DecidableEq

/-- An ingress unit record (the manager reads `id`, `faction_id`,
`player_id` from it; the simulator normalizes it on insertion). -/
structure UnitRecord where
  id : Nat
  faction_id : Nat
  player_id : Option Nat
  hp : Int
  pos_x : Int
  pos_y : Int
  pos_z : Int
deriving DecidableEq

/-- Modelled from the spec: normalization of an ingress record (§4.1) —
`alive` is initialized to `hp > 0`; weapon staggering does not touch the
fields the manager-level claims observe. -/
def UnitRecord.toSimUnit (r : UnitRecord) : SimUnit :=
  { id := r.id, faction_id := r.faction_id, alive := r.hp > 0,
    x := r.pos_x, y := r.pos_y, z := r.pos_z, target_id := none }

/-- Modelled from the spec: the WASM simulator state visible to the manager.
The missing Rust sources own the full combat state; the manager-level claims
read only the unit table and the next-weapon-ready time. -/
structure WasmBattleSimulator where
  units : List SimUnit
  nextWeaponReadyTime : Int
deriving DecidableEq

/-- Modelled from the spec: constructing the simulator normalizes every
ingress record (§4.1).  The initial next-weapon-ready value is never read
by the manager before a step reports idleness. -/
def WasmBattleSimulator.create (units : List UnitRecord) (now : Int) :
    WasmBattleSimulator :=
  { units := units.map UnitRecord.toSimUnit, nextWeaponReadyTime := now }

/-- Deduplication keeping first occurrences, carrying the set of values
already seen. -/
def firstDedupAux : List Nat → List Nat → List Nat
  | [], _ => []
  | a :: t, seen =>
    if a ∈ seen then firstDedupAux t seen
    else a :: firstDedupAux t (a :: seen)

/-- The `[...new Set(l)]` in JS: deduplication keeping first occurrences. -/
def firstDedup (l : List Nat) : List Nat := firstDedupAux l []

/-- Modelled from the spec: `active_factions()` — the set of factions with
at least one alive unit (§4.7). -/
def WasmBattleSimulator.get_active_factions (s : WasmBattleSimulator) :
    List Nat :=
  firstDedup ((s.units.filter (fun u => u.alive)).map (fun u => u.faction_id))

/-- Modelled from the spec: `results()` — the final unit records (§4.7). -/
def WasmBattleSimulator.get_results (s : WasmBattleSimulator) : List SimUnit :=
  s.units

/-- Modelled from the spec: `is_battle_ended()` — at most one active
faction remains (§4.7). -/
def WasmBattleSimulator.is_battle_ended (s : WasmBattleSimulator) : Bool :=
  s.get_active_factions.length ≤ 1

/-- Modelled from the spec: `next_weapon_ready_time()` (§4.7). -/
def WasmBattleSimulator.get_next_weapon_ready_time (s : WasmBattleSimulator) :
    Int :=
  s.nextWeaponReadyTime

/-- One entry of an `update_positions` batch (§4.8). -/
structure PositionUpdate where
  id : Nat
  x : Int
  y : Int
  z : Int
  clear_target : Bool
deriving DecidableEq

/-- Overwrite the position (and optionally the target) of the unit named by
one update. -/
def setUnitPosition (us : List SimUnit) (p : PositionUpdate) : List SimUnit :=
  us.map (fun u =>
    if u.id = p.id then
      { u with x := p.x, y := p.y, z := p.z,
               target_id := if p.clear_target then none else u.target_id }
    else u)

/-- Modelled from the spec: `update_positions` overwrites positions for the
listed units, clears targets when asked, and returns the count updated
(§4.8). -/
def WasmBattleSimulator.update_unit_positions (s : WasmBattleSimulator)
    (ups : List PositionUpdate) : WasmBattleSimulator × Nat :=
  ups.foldl
    (fun acc p =>
      if acc.1.units.any (fun u => u.id = p.id) then
        ({ acc.1 with units := setUnitPosition acc.1.units p }, acc.2 + 1)
      else acc)
    (s, 0)

/-- Modelled from the spec: `update_single_position` (§4.8). -/
def WasmBattleSimulator.update_single_unit_position (s : WasmBattleSimulator)
    (uid : Nat) (x y z : Int) (clearTarget : Bool) : WasmBattleSimulator :=
  { s with units := setUnitPosition s.units ⟨uid, x, y, z, clearTarget⟩ }

/-- Modelled from the spec: `force_retarget()` clears every unit's target id
(§4.8); reacquisition happens in the next targeting pass inside the core. -/
def WasmBattleSimulator.force_retarget (s : WasmBattleSimulator) :
    WasmBattleSimulator :=
  { s with units := s.units.map (fun u => { u with target_id := none }) }

/-- Modelled from the spec: `add_unit` normalizes and inserts one record
(§4.8). -/
def WasmBattleSimulator.add_unit (s : WasmBattleSimulator) (r : UnitRecord) :
    WasmBattleSimulator :=
  { s with units := s.units ++ [r.toSimUnit] }

/-- The `moved` delta entry (§4.7). -/
structure MovedEntry where
  id : Nat
  x : Int
  y : Int
  z : Int
deriving DecidableEq

/-- The `damaged` delta entry (§4.7). -/
structure DamagedEntry where
  id : Nat
  hp : Int
  shield : Int
  attacker_id : Nat
deriving DecidableEq

/-- The `destroyed` delta entry (§4.7). -/
structure DestroyedEntry where
  id : Nat
  destroyed_by : Nat
deriving DecidableEq

/-- The `weapons_fired` delta entry (§4.5). -/
structure WeaponFiredEntry where
  attacker_id : Nat
  target_id : Nat
  weapon_tag : String
  impact_time_ms : Int
deriving DecidableEq

/-- The parsed result of one `simulate_tick` call. -/
structure TickResult where
  moved : List MovedEntry
  damaged : List DamagedEntry
  destroyed : List DestroyedEntry
  weaponsFired : List WeaponFiredEntry
  isIdle : Bool
deriving DecidableEq

/-- The per-battle `stats` object (BattleManager.js lines 109-114). -/
structure BattleStats where
  totalWeaponsFired : Nat
  totalDamageEvents : Nat
  totalDestroyed : Nat
  lastSummaryTick : Nat
deriving DecidableEq

/-- The `battle.results` object stored at finalization
(BattleManager.js lines 477-485). -/
structure BattleResults where
  battleId : String
  systemId : Int
  duration : Int
  totalTicks : Nat
  activeFactions : List Nat
  units : List SimUnit
  error : Option String
deriving DecidableEq

/-- One battle instance (BattleManager.js lines 86-115). -/
structure Battle where
  battleId : String
  systemId : Int
  simulator : WasmBattleSimulator
  tick : Nat
  startTime : Int
  lastTickTime : Int
  units : List Nat
  factions : List Nat
  ended : Bool
  results : Option BattleResults
  isIdle : Bool
  idleTickCount : Nat
  nextWeaponReadyTime : Int
  lastIdleCheckTime : Int
  lastDamageTime : Int
  lastTimeoutCheck : Int
  stats : BattleStats
deriving DecidableEq

/-- The `battle:concluded` broadcast payload
(BattleManager.js lines 488-497). -/
structure ConcludedEvent where
  battleId : String
  systemId : Int
  duration : Int
  totalTicks : Nat
  survivors : List Nat
  casualties : List Nat
  victor : Option Nat
  reason : String
deriving DecidableEq

/-- Events the manager publishes to `system:<systemId>` subscribers. -/
inductive Event where
  | started (battleId : String) (systemId : Int) (unitCount : Nat)
      (factions : List Nat)
  | tick (battleId : String) (systemId : Int) (tickNo : Nat)
      (moved : List MovedEntry) (damaged : List DamagedEntry)
      (destroyed : List DestroyedEntry)
      (weaponsFired : List WeaponFiredEntry)
  | reinforcements (battleId : String) (systemId : Int)
      (units : List (Nat × Nat × Option Nat))
  | concluded (e : ConcludedEvent)
deriving DecidableEq

/-- The `TICK_RATE_MS` (BattleManager.js line 26). -/
def TICK_RATE_MS : Int := 50

/-- The `MAX_BATTLE_DURATION_MS` = 30 minutes (BattleManager.js line 33). -/
def MAX_BATTLE_DURATION_MS : Int := 30 * 60 * 1000

/-- The `STALEMATE_REAL_TIME_MS` = 5 minutes (BattleManager.js line 36). -/
def STALEMATE_REAL_TIME_MS : Int := 5 * 60 * 1000

/-- The `TIMEOUT_CHECK_INTERVAL_MS` = 10 seconds (BattleManager.js line 39). -/
def TIMEOUT_CHECK_INTERVAL_MS : Int := 10 * 1000

/-- The `IDLE_CHECK_INTERVAL_MS` (BattleManager.js line 44). -/
def IDLE_CHECK_INTERVAL_MS : Int := 500

/-- The `LOG_SUMMARY_INTERVAL_TICKS` (BattleManager.js line 50). -/
def LOG_SUMMARY_INTERVAL_TICKS : Nat := 100

/-- The `Math.round(t / 60000)` for an integer millisecond count `t`:
rounding half toward positive infinity. -/
def roundMinutes (t : Int) : Int := (t + 30000).fdiv 60000

/-- The `checkBattleTimeout` (BattleManager.js lines 172-189). -/
def checkBattleTimeout (b : Battle) (now : Int) : Option String :=
  let runningTime := now - b.startTime
  let timeSinceLastDamage := now - b.lastDamageTime
  if runningTime > MAX_BATTLE_DURATION_MS then
    some ("max_duration_exceeded_" ++ toString (roundMinutes runningTime) ++ "m")
  else if timeSinceLastDamage > STALEMATE_REAL_TIME_MS then
    some ("stalemate_no_damage_" ++ toString (roundMinutes timeSinceLastDamage) ++ "m")
  else
    none

/-- The `activeFactions.length === 1 ? activeFactions[0] : null`
(BattleManager.js line 495). -/
def battleVictor (b : Battle) : Option Nat :=
  match b.simulator.get_active_factions with
  | [f] => some f
  | _ => none

/-- The `battle.results` object assigned at finalization
(BattleManager.js lines 477-485). -/
def finalResults (b : Battle) (err : Option String) (now : Int) :
    BattleResults :=
  { battleId := b.battleId, systemId := b.systemId,
    duration := now - b.startTime, totalTicks := b.tick,
    activeFactions := b.simulator.get_active_factions,
    units := b.simulator.get_results, error := err }

/-- The `battle:concluded` payload built at finalization
(BattleManager.js lines 488-497): survivors are the alive units of the final
snapshot, casualties the dead ones, the victor is the unique active faction
or null, the reason is the error's message or `completed`. -/
def concludedOf (b : Battle) (err : Option String) (now : Int) :
    ConcludedEvent :=
  { battleId := b.battleId, systemId := b.systemId,
    duration := now - b.startTime, totalTicks := b.tick,
    survivors := ((b.simulator.get_results).filter
      (fun u => u.alive)).map (fun u => u.id),
    casualties := ((b.simulator.get_results).filter
      (fun u => !u.alive)).map (fun u => u.id),
    victor := battleVictor b, reason := err.getD "completed" }

/-- The `endBattle` (BattleManager.js lines 439-511), restricted to one battle.
Returns the updated battle, the published events, and the list of battle ids
scheduled for purge from memory 60 s later.  The early return on
`battle.ended` (lines 444-447) yields the battle unchanged with no event and
no purge. -/
def endBattle (b : Battle) (err : Option String) (now : Int) :
    Battle × List Event × List String :=
  if b.ended then (b, [], [])
  else
    ({ b with ended := true, results := some (finalResults b err now) },
     [Event.concluded (concludedOf b err now)], [b.battleId])

/-- The abstract per-tick transition of the WASM core: given `dt` and the
wall time (the source passes both in seconds, i.e. milliseconds divided by
1000 — a pure unit conversion), either a raised exception's message or the
updated simulator with the parsed tick result. -/
abbrev StepFun :=
  Int → Int → WasmBattleSimulator → Except String (WasmBattleSimulator × TickResult)

/-- The body of `processTick` from the `dt` computation onward
(BattleManager.js lines 251-333): run the step, merge stats, update
`lastDamageTime`, handle the idle transition, emit the tick event and detect
termination.  A step exception is caught and ends this battle with the
exception's message (lines 330-333). -/
def runStep (step : StepFun) (now : Int) (b : Battle) :
    Battle × List Event × List String :=
  let dt := now - b.lastTickTime
  let b1 := { b with lastTickTime := now }
  match step dt now b1.simulator with
  | .error msg => endBattle b1 (some msg) now
  | .ok (sim2, tr) =>
    let b2 :=
      { b1 with
        simulator := sim2, tick := b1.tick + 1,
        stats :=
          { totalWeaponsFired := b1.stats.totalWeaponsFired + tr.weaponsFired.length,
            totalDamageEvents := b1.stats.totalDamageEvents + tr.damaged.length,
            totalDestroyed := b1.stats.totalDestroyed + tr.destroyed.length,
            lastSummaryTick := b1.stats.lastSummaryTick } }
    let b3 :=
      if tr.damaged.length > 0 ∨ tr.destroyed.length > 0 then
        { b2 with lastDamageTime := now }
      else b2
    if tr.isIdle then
      let b4 :=
        if !b3.isIdle then
          { b3 with isIdle := true, idleTickCount := 0,
                    lastIdleCheckTime := now,
                    nextWeaponReadyTime := sim2.get_next_weapon_ready_time }
        else b3
      (b4, [], [])
    else
      let b5 :=
        if tr.weaponsFired.length > 0 then
          { b3 with nextWeaponReadyTime := sim2.get_next_weapon_ready_time }
        else b3
      let b6 :=
        if b5.tick % LOG_SUMMARY_INTERVAL_TICKS = 0 then
          { b5 with stats := { b5.stats with lastSummaryTick := b5.tick } }
        else b5
      let tickEv :=
        Event.tick b6.battleId b6.systemId b6.tick tr.moved tr.damaged
          tr.destroyed tr.weaponsFired
      if sim2.is_battle_ended then
        let r := endBattle b6 none now
        (r.1, tickEv :: r.2.1, r.2.2)
      else
        (b6, [tickEv], [])

/-- The idle-mode gate of `processTick` (BattleManager.js lines 224-249):
idle battles are re-evaluated only every 500 ms; a due idle battle wakes when
the wall clock has reached the recorded next-weapon-ready time, and otherwise
only bumps its idle counter. -/
def processBattleIdlePhase (step : StepFun) (now : Int) (b : Battle) :
    Battle × List Event × List String :=
  if b.isIdle then
    let b1 := if b.lastIdleCheckTime = 0 then { b with lastIdleCheckTime := now } else b
    if now - b1.lastIdleCheckTime < IDLE_CHECK_INTERVAL_MS then (b1, [], [])
    else
      let b2 := { b1 with lastIdleCheckTime := now }
      if now ≥ b2.nextWeaponReadyTime then
        runStep step now { b2 with isIdle := false }
      else
        ({ b2 with idleTickCount := b2.idleTickCount + 1 }, [], [])
  else runStep step now b

/-- One iteration of the `processTick` loop for a single battle
(BattleManager.js lines 198-334): ended battles are skipped; the timeout
check runs first, regardless of idle state (lines 202-221); then the idle
gate and the step. -/
def processTickBattle (step : StepFun) (now : Int) (b : Battle) :
    Battle × List Event × List String :=
  if b.ended then (b, [], [])
  else if now - b.lastTimeoutCheck ≥ TIMEOUT_CHECK_INTERVAL_MS then
    let b1 := { b with lastTimeoutCheck := now }
    match checkBattleTimeout b1 now with
    | some reason => endBattle b1 (some reason) now
    | none => processBattleIdlePhase step now b1
  else processBattleIdlePhase step now b

/-- The manager: the `battleId -> Battle` map, as an association list in
insertion order (JS `Map` preserves insertion order). -/
structure BattleManager where
  battles : List (String × Battle)
deriving DecidableEq

/-- A step function per battle id. -/
abbrev NamedStepFun := String → StepFun

/-- The `processTick` over all battles (BattleManager.js lines 194-340): each
battle is processed independently in map order; events and purge schedules
are concatenated in that order. -/
def BattleManager.processTick (m : BattleManager) (step : NamedStepFun)
    (now : Int) : BattleManager × List Event × List String :=
  let processed := m.battles.map (fun p => (p.1, processTickBattle (step p.1) now p.2))
  (⟨processed.map (fun q => (q.1, q.2.1))⟩,
   (processed.map (fun q => q.2.2.1)).flatten,
   (processed.map (fun q => q.2.2.2)).flatten)

/-- The `Map.set` semantics: replace the entry in place when the key exists,
append otherwise. -/
def mapSet (l : List (String × Battle)) (k : String) (v : Battle) :
    List (String × Battle) :=
  if l.any (fun p => p.1 = k) then
    l.map (fun p => if p.1 = k then (k, v) else p)
  else l ++ [(k, v)]

/-- The ad-hoc result objects the mutation operations return. -/
structure MutationResult where
  success : Bool
  error : Option String
  updatedCount : Option Nat
deriving DecidableEq

/-- The `{ success: false, error: msg }`. -/
def mutationFailure (msg : String) : MutationResult :=
  { success := false, error := some msg, updatedCount := none }

/-- The `updateUnitPositions` (BattleManager.js lines 346-367): guard on unknown
or ended battle, wake from idle, forward to the simulator, return the count. -/
def BattleManager.updateUnitPositions (m : BattleManager) (battleId : String)
    (ups : List PositionUpdate) : BattleManager × MutationResult :=
  match m.battles.lookup battleId with
  | none => (m, mutationFailure "Battle not found or ended")
  | some b =>
    if b.ended then (m, mutationFailure "Battle not found or ended")
    else
      let b1 := if b.isIdle then { b with isIdle := false } else b
      let r := b1.simulator.update_unit_positions ups
      (⟨mapSet m.battles battleId { b1 with simulator := r.1 }⟩,
       { success := true, error := none, updatedCount := some r.2 })

/-- The `updateSingleUnitPosition` (BattleManager.js lines 372-390). -/
def BattleManager.updateSingleUnitPosition (m : BattleManager)
    (battleId : String) (uid : Nat) (x y z : Int) (clearTarget : Bool) :
    BattleManager × MutationResult :=
  match m.battles.lookup battleId with
  | none => (m, mutationFailure "Battle not found or ended")
  | some b =>
    if b.ended then (m, mutationFailure "Battle not found or ended")
    else
      let b1 := if b.isIdle then { b with isIdle := false } else b
      let sim2 := b1.simulator.update_single_unit_position uid x y z clearTarget
      (⟨mapSet m.battles battleId { b1 with simulator := sim2 }⟩,
       { success := true, error := none, updatedCount := none })

/-- The `forceRetarget` (BattleManager.js lines 405-417).  Note: unlike the
position updates, it does not touch `isIdle`. -/
def BattleManager.forceRetarget (m : BattleManager) (battleId : String) :
    BattleManager × MutationResult :=
  match m.battles.lookup battleId with
  | none => (m, mutationFailure "Battle not found or ended")
  | some b =>
    if b.ended then (m, mutationFailure "Battle not found or ended")
    else
      (⟨mapSet m.battles battleId { b with simulator := b.simulator.force_retarget }⟩,
       { success := true, error := none, updatedCount := none })

/-- The `addReinforcements` (BattleManager.js lines 533-567): guard, insert every
unit into the simulator, record the ids, publish the `battle:reinforcements`
event.  Note: it does not touch `isIdle` either. -/
def BattleManager.addReinforcements (m : BattleManager) (battleId : String)
    (units : List UnitRecord) : BattleManager × List Event × MutationResult :=
  match m.battles.lookup battleId with
  | none => (m, [], mutationFailure "Battle not found or already ended")
  | some b =>
    if b.ended then (m, [], mutationFailure "Battle not found or already ended")
    else
      let sim2 := units.foldl (fun s u => s.add_unit u) b.simulator
      let b1 := { b with simulator := sim2,
                         units := b.units ++ units.map (fun u => u.id) }
      let ev := Event.reinforcements battleId b.systemId
        (units.map (fun u => (u.id, u.faction_id, u.player_id)))
      (⟨mapSet m.battles battleId b1⟩, [ev],
       { success := true, error := none, updatedCount := none })

/-- The result object of `startBattle`. -/
structure StartResult where
  success : Bool
  battleId : Option String
  error : Option String
deriving DecidableEq

/-- The `startBattle` (BattleManager.js lines 58-140): build the simulator,
register the battle with every clock field set to `now`, publish
`battle:started`. -/
def BattleManager.startBattle (m : BattleManager) (battleId : String)
    (systemId : Int) (units : List UnitRecord) (now : Int) :
    BattleManager × List Event × StartResult :=
  let factions := firstDedup (units.map (fun u => u.faction_id))
  let simulator := WasmBattleSimulator.create units now
  let battle : Battle :=
    { battleId := battleId, systemId := systemId, simulator := simulator,
      tick := 0, startTime := now, lastTickTime := now,
      units := units.map (fun u => u.id), factions := factions,
      ended := false, results := none, isIdle := false, idleTickCount := 0,
      nextWeaponReadyTime := 0, lastIdleCheckTime := 0,
      lastDamageTime := now, lastTimeoutCheck := now,
      stats := { totalWeaponsFired := 0, totalDamageEvents := 0,
                 totalDestroyed := 0, lastSummaryTick := 0 } }
  (⟨mapSet m.battles battleId battle⟩,
   [Event.started battleId systemId units.length factions],
   { success := true, battleId := some battleId, error := none })

/-- A JS value appearing in the status object. -/
inductive JsVal where
  | bool (b : Bool)
  | num (n : Int)
  | str (s : String)
  | natList (l : List Nat)
  | statsVal (s : BattleStats)
  | resultsVal (r : Option BattleResults)
deriving DecidableEq

/-- The `getBattleStatus` (BattleManager.js lines 572-592), modelled as the JS
object's field list in source order so that field presence is observable. -/
def BattleManager.getBattleStatus (m : BattleManager) (battleId : String)
    (now : Int) : List (String × JsVal) :=
  match m.battles.lookup battleId with
  | none => [("found", JsVal.bool false)]
  | some b =>
    [("found", JsVal.bool true),
     ("battleId", JsVal.str b.battleId),
     ("systemId", JsVal.num b.systemId),
     ("tick", JsVal.num (Int.ofNat b.tick)),
     ("duration", JsVal.num (now - b.startTime)),
     ("timeSinceLastDamage", JsVal.num (now - b.lastDamageTime)),
     ("ended", JsVal.bool b.ended),
     ("unitCount", JsVal.num (Int.ofNat b.units.length)),
     ("factions", JsVal.natList b.factions),
     ("stats", JsVal.statsVal b.stats),
     ("results", JsVal.resultsVal b.results)]

/-- The destructured `battle:start` payload; `none` models an absent
(undefined) field, and a `units` value is present exactly when
`Array.isArray(units)` holds. -/
structure StartPayload where
  battleId : Option String
  systemId : Option Int
  units : Option (List UnitRecord)
deriving DecidableEq

/-- JS truthiness of a possibly-absent string: `undefined` and `""` are
falsy. -/
def jsTruthyString : Option String → Bool
  | none => false
  | some s => !(s == "")

/-- JS truthiness of a possibly-absent number: `undefined` and `0` are
falsy. -/
def jsTruthyInt : Option Int → Bool
  | none => false
  | some n => !(n == 0)

/-- The shared guard `!battleId || !systemId || !Array.isArray(units)`
(Server.js line 74, unnamed/part_000 lines 39 and 84), negated. -/
def startPayloadValid (p : StartPayload) : Bool :=
  jsTruthyString p.battleId && jsTruthyInt p.systemId && p.units.isSome

/-- The `battle:start` socket handler (Server.js lines 71-109; identical
guard in unnamed/part_000 lines 81-124): reject invalid payloads with
`Invalid payload` without touching the manager, otherwise start the
battle. -/
def socketBattleStart (m : BattleManager) (p : StartPayload) (now : Int) :
    BattleManager × List Event × StartResult :=
  if !startPayloadValid p then
    (m, [], { success := false, battleId := none, error := some "Invalid payload" })
  else
    m.startBattle (p.battleId.getD "") (p.systemId.getD 0) (p.units.getD []) now

/-- The HTTP response of `POST /battle/start`. -/
inductive HttpStartResponse where
  | badRequest (error : String)
  | okStarted (battleId : String)
  | serverError (error : String)
deriving DecidableEq

/-- The `POST /battle/start` (unnamed/part_000 lines 37-48): status 400 with
`Invalid payload` on the failed guard, otherwise delegate to
`startBattle`. -/
def httpBattleStart (m : BattleManager) (p : StartPayload) (now : Int) :
    BattleManager × List Event × HttpStartResponse :=
  if !startPayloadValid p then
    (m, [], HttpStartResponse.badRequest "Invalid payload")
  else
    let r := m.startBattle (p.battleId.getD "") (p.systemId.getD 0)
      (p.units.getD []) now
    if r.2.2.success then
      (r.1, r.2.1, HttpStartResponse.okStarted (r.2.2.battleId.getD ""))
    else
      (r.1, r.2.1, HttpStartResponse.serverError ((r.2.2.error).getD ""))

/-- A concrete alive unit of faction 1. -/
def sampleUnitA : SimUnit :=
  { id := 1, faction_id := 1, alive := true, x := 0, y := 0, z := 0,
    target_id := none }

/-- A concrete alive unit of faction 2. -/
def sampleUnitB : SimUnit :=
  { id := 2, faction_id := 2, alive := true, x := 10, y := 0, z := 0,
    target_id := some 1 }

/-- A concrete dead unit of faction 2. -/
def sampleUnitDead : SimUnit :=
  { id := 3, faction_id := 2, alive := false, x := 5, y := 0, z := 0,
    target_id := none }

/-- A concrete simulator state with two factions alive. -/
def sampleSim : WasmBattleSimulator :=
  { units := [sampleUnitA, sampleUnitB, sampleUnitDead],
    nextWeaponReadyTime := 500000 }

/-- A concrete live battle currently in idle mode. -/
def sampleBattleIdle : Battle :=
  { battleId := "b1", systemId := 7, simulator := sampleSim, tick := 5,
    startTime := 1000, lastTickTime := 2000, units := [1, 2, 3],
    factions := [1, 2], ended := false, results := none, isIdle := true,
    idleTickCount := 0, nextWeaponReadyTime := 500000,
    lastIdleCheckTime := 2000, lastDamageTime := 1500,
    lastTimeoutCheck := 1000,
    stats := { totalWeaponsFired := 4, totalDamageEvents := 3,
               totalDestroyed := 1, lastSummaryTick := 0 } }

/-- A concrete battle that has already ended. -/
def sampleBattleEnded : Battle :=
  { sampleBattleIdle with battleId := "b2", ended := true }

/-- A concrete manager holding one live and one ended battle. -/
def sampleManager : BattleManager :=
  ⟨[("b1", sampleBattleIdle), ("b2", sampleBattleEnded)]⟩

/-- A concrete ingress unit record. -/
def sampleRecord : UnitRecord :=
  { id := 4, faction_id := 1, player_id := some 9, hp := 100,
    pos_x := 1, pos_y := 2, pos_z := 3 }

/-- A concrete step function that always raises. -/
def sampleFailingStep : NamedStepFun :=
  fun _ _ _ _ => Except.error "boom"

/-- A concrete tick result reporting one damaged unit and nothing else. -/
def sampleTickResult : TickResult :=
  { moved := [], damaged := [{ id := 2, hp := 40, shield := 0, attacker_id := 1 }],
    destroyed := [], weaponsFired := [], isIdle := false }

/-- A concrete step function that always succeeds with `sampleTickResult`. -/
def sampleOkStep : StepFun :=
  fun _ _ s => Except.ok (s, sampleTickResult)

/-- A concrete live battle not in idle mode, with a fresh timeout check. -/
def sampleBattleActive : Battle :=
  { sampleBattleIdle with isIdle := false, lastTimeoutCheck := 4000 }

/-- A concrete manager holding the active battle and the ended one. -/
def sampleManagerActive : BattleManager :=
  ⟨[("b1", sampleBattleActive), ("b2", sampleBattleEnded)]⟩

section Helpers

/-- Looking a key up after rewriting every entry's value with a key-dependent
function commutes with the rewrite. -/
theorem lookup_map_entry (k : String) (l : List (String × Battle))
    (f : String → Battle → Battle) :
    List.lookup k (l.map (fun p => (p.1, f p.1 p.2))) =
      (List.lookup k l).map (f k) := by
  induction l with
  | nil => rfl
  | cons p t ih =>
    by_cases h : k = p.1
    · subst h
      simp [List.lookup]
    · have hb : (k == p.1) = false := by
        simp [h]
      simp [List.lookup, hb, ih]

/-- A successful lookup names an entry of the list. -/
theorem lookup_mem {l : List (String × Battle)} {k : String} {v : Battle}
    (h : List.lookup k l = some v) : (k, v) ∈ l := by
  induction l with
  | nil => simp [List.lookup] at h
  | cons p t ih =>
    by_cases hk : k = p.1
    · subst hk
      simp [List.lookup] at h
      subst h
      exact List.mem_cons_self _ _
    · have hb : (k == p.1) = false := by
        simp [hk]
      simp [List.lookup, hb] at h
      exact List.mem_cons_of_mem _ (ih h)

/-- Replacing every entry keyed `k` finds the replacement, provided such an
entry exists. -/
theorem lookup_replaceKey {l : List (String × Battle)} {k : String}
    (v : Battle) (h : l.any (fun p => p.1 = k) = true) :
    List.lookup k (l.map (fun p => if p.1 = k then (k, v) else p)) = some v := by
  induction l with
  | nil => simp at h
  | cons p t ih =>
    by_cases hk : p.1 = k
    · rw [List.map_cons, if_pos hk]
      simp [List.lookup]
    · have hb : (k == p.1) = false := by
        apply beq_eq_false_iff_ne.mpr
        intro hkk
        exact hk hkk.symm
      simp only [List.any_cons, decide_eq_true_eq, hk, Bool.false_or,
        decide_False] at h
      rw [List.map_cons, if_neg hk]
      simp only [List.lookup, hb]
      exact ih h

/-- Appending a fresh entry finds it, provided the key was absent. -/
theorem lookup_append_fresh {l : List (String × Battle)} {k : String}
    (v : Battle) (h : l.any (fun p => p.1 = k) = false) :
    List.lookup k (l ++ [(k, v)]) = some v := by
  induction l with
  | nil => simp [List.lookup]
  | cons p t ih =>
    simp only [List.any_cons, Bool.or_eq_false_iff, decide_eq_false_iff_not] at h
    have hb : (k == p.1) = false := by
      apply beq_eq_false_iff_ne.mpr
      intro hkk
      exact h.1 hkk.symm
    simp only [List.cons_append, List.lookup, hb]
    exact ih (by simpa using h.2)

/-- The `Map.set` followed by `Map.get` yields the stored value. -/
theorem lookup_mapSet (l : List (String × Battle)) (k : String) (v : Battle) :
    List.lookup k (mapSet l k v) = some v := by
  unfold mapSet
  by_cases h : l.any (fun p => p.1 = k) = true
  · simp only [h, if_true]
    exact lookup_replaceKey v h
  · simp only [Bool.not_eq_true] at h
    simp only [h, Bool.false_eq_true, if_false]
    exact lookup_append_fresh v h

theorem firstDedupAux_eq_nil_iff (t seen : List Nat) :
    firstDedupAux t seen = [] ↔ ∀ x ∈ t, x ∈ seen := by
  induction t generalizing seen with
  | nil => simp [firstDedupAux]
  | cons a t ih =>
    by_cases ha : a ∈ seen
    · simp [firstDedupAux, ha, ih, List.forall_mem_cons]
    · simp [firstDedupAux, ha, List.forall_mem_cons]

theorem firstDedup_eq_nil_iff {l : List Nat} : firstDedup l = [] ↔ l = [] := by
  cases l with
  | nil => simp [firstDedup, firstDedupAux]
  | cons a t => simp [firstDedup, firstDedupAux]

/-- The `firstDedup` is a singleton `[f]` exactly when the list is non-empty and
constantly `f`. -/
theorem firstDedup_singleton_iff {l : List Nat} {f : Nat} :
    firstDedup l = [f] ↔ (l ≠ [] ∧ ∀ x ∈ l, x = f) := by
  cases l with
  | nil => simp [firstDedup, firstDedupAux]
  | cons a t =>
    have hred : firstDedup (a :: t) = a :: firstDedupAux t [a] := by
      simp [firstDedup, firstDedupAux]
    rw [hred]
    constructor
    · intro h
      injection h with h1 h2
      subst h1
      have hall := (firstDedupAux_eq_nil_iff t [a]).mp h2
      refine ⟨by simp, ?_⟩
      intro x hx
      rcases List.mem_cons.mp hx with h3 | h3
      · exact h3
      · simpa using hall x h3
    · rintro ⟨-, hall⟩
      have ha : a = f := hall a (List.mem_cons_self a t)
      have hnil : firstDedupAux t [a] = [] := by
        apply (firstDedupAux_eq_nil_iff t [a]).mpr
        intro x hx
        simp [hall x (List.mem_cons_of_mem _ hx), ha]
      rw [hnil, ha]

theorem endBattle_startTime (b : Battle) (err : Option String) (now : Int) :
    (endBattle b err now).1.startTime = b.startTime := by
  unfold endBattle
  split <;> rfl

theorem endBattle_lastTimeoutCheck (b : Battle) (err : Option String)
    (now : Int) :
    (endBattle b err now).1.lastTimeoutCheck = b.lastTimeoutCheck := by
  unfold endBattle
  split <;> rfl

theorem endBattle_lastDamageTime (b : Battle) (err : Option String)
    (now : Int) :
    (endBattle b err now).1.lastDamageTime = b.lastDamageTime := by
  unfold endBattle
  split <;> rfl

theorem endBattle_ended (b : Battle) (err : Option String) (now : Int) :
    (endBattle b err now).1.ended = true ∨ (endBattle b err now).1 = b := by
  unfold endBattle
  split
  · exact Or.inr rfl
  · exact Or.inl rfl

theorem runStep_startTime (step : StepFun) (now : Int) (b : Battle) :
    (runStep step now b).1.startTime = b.startTime := by
  cases hst : step (now - b.lastTickTime) now b.simulator with
  | error msg =>
    simp only [runStep, hst]
    exact endBattle_startTime _ _ _
  | ok pr =>
    obtain ⟨sim2, tr⟩ := pr
    simp only [runStep, hst]
    repeat' split
    all_goals
      first
        | rfl
        | (rw [endBattle_startTime])

theorem runStep_lastTimeoutCheck (step : StepFun) (now : Int) (b : Battle) :
    (runStep step now b).1.lastTimeoutCheck = b.lastTimeoutCheck := by
  cases hst : step (now - b.lastTickTime) now b.simulator with
  | error msg =>
    simp only [runStep, hst]
    exact endBattle_lastTimeoutCheck _ _ _
  | ok pr =>
    obtain ⟨sim2, tr⟩ := pr
    simp only [runStep, hst]
    repeat' split
    all_goals
      first
        | rfl
        | (rw [endBattle_lastTimeoutCheck])

theorem runStep_lastDamageTime_cases (step : StepFun) (now : Int) (b : Battle) :
    (runStep step now b).1.lastDamageTime = now ∨
      (runStep step now b).1.lastDamageTime = b.lastDamageTime := by
  cases hst : step (now - b.lastTickTime) now b.simulator with
  | error msg =>
    simp only [runStep, hst]
    exact Or.inr (endBattle_lastDamageTime _ _ _)
  | ok pr =>
    obtain ⟨sim2, tr⟩ := pr
    simp only [runStep, hst]
    repeat' split
    all_goals
      first
        | exact Or.inl rfl
        | exact Or.inr rfl
        | (rw [endBattle_lastDamageTime]
           first
             | exact Or.inl rfl
             | exact Or.inr rfl)

theorem processBattleIdlePhase_startTime (step : StepFun) (now : Int)
    (b : Battle) :
    (processBattleIdlePhase step now b).1.startTime = b.startTime := by
  simp only [processBattleIdlePhase]
  repeat' (first | split | dsimp only)
  all_goals
    first
      | rfl
      | exact runStep_startTime _ _ _

theorem processBattleIdlePhase_lastTimeoutCheck (step : StepFun) (now : Int)
    (b : Battle) :
    (processBattleIdlePhase step now b).1.lastTimeoutCheck =
      b.lastTimeoutCheck := by
  simp only [processBattleIdlePhase]
  repeat' (first | split | dsimp only)
  all_goals
    first
      | rfl
      | exact runStep_lastTimeoutCheck _ _ _

theorem processBattleIdlePhase_lastDamageTime_cases (step : StepFun)
    (now : Int) (b : Battle) :
    (processBattleIdlePhase step now b).1.lastDamageTime = now ∨
      (processBattleIdlePhase step now b).1.lastDamageTime =
        b.lastDamageTime := by
  simp only [processBattleIdlePhase]
  repeat' (first | split | dsimp only)
  all_goals
    first
      | exact Or.inr rfl
      | exact runStep_lastDamageTime_cases _ _ _

theorem processTickBattle_startTime (step : StepFun) (now : Int) (b : Battle) :
    (processTickBattle step now b).1.startTime = b.startTime := by
  simp only [processTickBattle]
  repeat' (first | split | dsimp only)
  all_goals
    first
      | rfl
      | exact endBattle_startTime _ _ _
      | exact processBattleIdlePhase_startTime _ _ _

theorem processTickBattle_lastDamageTime_cases (step : StepFun) (now : Int)
    (b : Battle) :
    (processTickBattle step now b).1.lastDamageTime = now ∨
      (processTickBattle step now b).1.lastDamageTime = b.lastDamageTime := by
  simp only [processTickBattle]
  repeat' (first | split | dsimp only)
  all_goals
    first
      | exact Or.inr rfl
      | exact Or.inr (endBattle_lastDamageTime _ _ _)
      | exact processBattleIdlePhase_lastDamageTime_cases _ _ _

theorem processTickBattle_of_ended (step : StepFun) (now : Int) (b : Battle)
    (h : b.ended = true) :
    processTickBattle step now b = (b, [], []) := by
  unfold processTickBattle
  simp [h]

theorem endBattle_of_not_ended (b : Battle) (err : Option String) (now : Int)
    (hne : b.ended = false) :
    endBattle b err now =
      ({ b with ended := true, results := some (finalResults b err now) },
       [Event.concluded (concludedOf b err now)], [b.battleId]) := by
  unfold endBattle
  rw [if_neg (by simp [hne])]

/-- When the 10 s timeout gate is due and the check yields a reason, one
scheduler firing ends the battle through `endBattle`, before the idle gate
and the step are ever consulted. -/
theorem timeout_ends_battle (step : StepFun) (now : Int) (b : Battle)
    (r : String) (hne : b.ended = false)
    (hgate : now - b.lastTimeoutCheck ≥ TIMEOUT_CHECK_INTERVAL_MS)
    (hr : checkBattleTimeout b now = some r) :
    processTickBattle step now b =
      ({ b with
            lastTimeoutCheck := now
            ended := true
            results :=
              some (finalResults { b with lastTimeoutCheck := now } (some r) now) },
       [Event.concluded (concludedOf { b with lastTimeoutCheck := now } (some r) now)],
       [b.battleId]) := by
  have hr1 : checkBattleTimeout { b with lastTimeoutCheck := now } now = some r := hr
  unfold processTickBattle
  rw [if_neg (by simp [hne]), if_pos hgate]
  dsimp only
  rw [hr1]
  exact endBattle_of_not_ended _ _ _ hne

theorem lookup_processTick (m : BattleManager) (step : NamedStepFun)
    (now : Int) (j : String) :
    (m.processTick step now).1.battles.lookup j =
      (m.battles.lookup j).map
        (fun bj => (processTickBattle (step j) now bj).1) := by
  unfold BattleManager.processTick
  dsimp only
  rw [List.map_map]
  exact lookup_map_entry j m.battles
    (fun id bj => (processTickBattle (step id) now bj).1)

theorem processTick_event_mem {m : BattleManager} {step : NamedStepFun}
    {now : Int} {p : String × Battle} (hp : p ∈ m.battles) {ev : Event}
    (hev : ev ∈ (processTickBattle (step p.1) now p.2).2.1) :
    ev ∈ (m.processTick step now).2.1 := by
  unfold BattleManager.processTick
  dsimp only
  refine List.mem_flatten.mpr
    ⟨(processTickBattle (step p.1) now p.2).2.1, ?_, hev⟩
  rw [List.map_map]
  exact List.mem_map_of_mem _ hp

/-- When a non-idle, non-ended battle whose timeout gate is not yet due runs
its step and the step raises, the firing reduces to `endBattle` with the
exception's message. -/
theorem processTickBattle_step_error (step : StepFun) (now : Int) (b : Battle)
    (msg : String) (hne : b.ended = false) (hidle : b.isIdle = false)
    (hto : ¬(now - b.lastTimeoutCheck ≥ TIMEOUT_CHECK_INTERVAL_MS))
    (hstep : step (now - b.lastTickTime) now b.simulator = Except.error msg) :
    processTickBattle step now b =
      endBattle { b with lastTickTime := now } (some msg) now := by
  unfold processTickBattle
  rw [if_neg (by simp [hne]), if_neg hto]
  unfold processBattleIdlePhase
  rw [if_neg (by simp [hidle])]
  unfold runStep
  dsimp only
  rw [hstep]

theorem battleVictor_eq_some_iff_factions (b : Battle) (f : Nat) :
    battleVictor b = some f ↔ b.simulator.get_active_factions = [f] := by
  unfold battleVictor
  cases hl : b.simulator.get_active_factions with
  | nil => simp
  | cons a t =>
    cases t with
    | nil => simp
    | cons a2 t2 => simp

/-- A simulator has exactly the one active faction `f` precisely when some
alive unit carries faction `f` and every alive unit does. -/
theorem active_factions_singleton_iff (s : WasmBattleSimulator) (f : Nat) :
    s.get_active_factions = [f] ↔
      ((∃ u ∈ s.units, u.alive = true ∧ u.faction_id = f) ∧
       ∀ u ∈ s.units, u.alive = true → u.faction_id = f) := by
  unfold WasmBattleSimulator.get_active_factions
  rw [firstDedup_singleton_iff]
  constructor
  · rintro ⟨hne, hall⟩
    constructor
    · rcases List.exists_mem_of_ne_nil _ hne with ⟨x, hx⟩
      rcases List.mem_map.mp hx with ⟨u, hu, rfl⟩
      rcases List.mem_filter.mp hu with ⟨humem, hua⟩
      exact ⟨u, humem, by simpa using hua, hall _ hx⟩
    · intro u hu hua
      exact hall _
        (List.mem_map_of_mem _ (List.mem_filter.mpr ⟨hu, by simp [hua]⟩))
  · rintro ⟨⟨u, hu, hua, huf⟩, hall⟩
    constructor
    · intro hmapnil
      have hmem : u.faction_id ∈
          (s.units.filter (fun v => v.alive)).map (fun v => v.faction_id) :=
        List.mem_map_of_mem _ (List.mem_filter.mpr ⟨hu, by simp [hua]⟩)
      rw [hmapnil] at hmem
      exact absurd hmem (List.not_mem_nil _)
    · intro x hx
      rcases List.mem_map.mp hx with ⟨v, hv, rfl⟩
      rcases List.mem_filter.mp hv with ⟨hvmem, hva⟩
      exact hall v hvmem (by simpa using hva)

end Helpers

/-- C2: for every non-ended battle whose `lastTimeoutCheck` is at least 10
seconds of wall time old, the next scheduler firing evaluates the timeout
check before and independently of the idle-skip decision (the battle's
`isIdle` flag and the step function are arbitrary here): a returned reason
force-ends the battle with that reason and publishes the concluded event,
an absent reason still records the evaluation in `lastTimeoutCheck`, and the
verdict depends on wall time only — it is invariant under the tick
counter. -/
theorem timeout_check_before_idle_skip (step : StepFun) (now : Int)
    (b : Battle) (hne : b.ended = false)
    (hgate : now - b.lastTimeoutCheck ≥ TIMEOUT_CHECK_INTERVAL_MS) :
    (∀ r, checkBattleTimeout b now = some r →
        (processTickBattle step now b).1.ended = true ∧
        (∃ res, (processTickBattle step now b).1.results = some res ∧
            res.error = some r) ∧
        (processTickBattle step now b).2.1 =
          [Event.concluded
            (concludedOf { b with lastTimeoutCheck := now } (some r) now)] ∧
        (concludedOf { b with lastTimeoutCheck := now } (some r) now).reason
          = r) ∧
    (checkBattleTimeout b now = none →
        (processTickBattle step now b).1.lastTimeoutCheck = now) ∧
    (∀ t, checkBattleTimeout { b with tick := t } now =
        checkBattleTimeout b now) := by
  refine ⟨?_, ?_, ?_⟩
  · intro r hr
    rw [timeout_ends_battle step now b r hne hgate hr]
    exact ⟨rfl, ⟨_, rfl, rfl⟩, rfl, rfl⟩
  · intro hnone
    have hnone1 : checkBattleTimeout { b with lastTimeoutCheck := now } now
        = none := hnone
    unfold processTickBattle
    rw [if_neg (by simp [hne]), if_pos hgate]
    dsimp only
    rw [hnone1]
    rw [processBattleIdlePhase_lastTimeoutCheck]
  · intro t
    rfl

/-- C2 witness: a concrete idle, non-ended battle 33 minutes past its start
is force-ended by the very next scheduler firing. -/
theorem timeout_check_before_idle_skip_witness :
    (sampleBattleIdle.ended = false ∧
      2000000 - sampleBattleIdle.lastTimeoutCheck ≥ TIMEOUT_CHECK_INTERVAL_MS ∧
      sampleBattleIdle.isIdle = true ∧
      checkBattleTimeout sampleBattleIdle 2000000 =
        some "max_duration_exceeded_33m") ∧
    (processTickBattle (sampleFailingStep "b1") 2000000 sampleBattleIdle).1.ended
      = true := by
  refine ⟨⟨by decide, by decide, by decide, by decide⟩, ?_⟩
  exact (((timeout_check_before_idle_skip (sampleFailingStep "b1") 2000000
    sampleBattleIdle (by decide) (by decide)).1 "max_duration_exceeded_33m"
    (by decide))).1

/-- C3: the timeout verdict for a battle at wall time `now`: the reason
`max_duration_exceeded_<N>m` exactly when more than 30 minutes have passed
since `startTime`; otherwise `stalemate_no_damage_<N>m` exactly when more
than 5 minutes have passed since `lastDamageTime`; otherwise no timeout —
and a returned reason force-ends the battle with that reason once the 10 s
gate is due. -/
theorem checkBattleTimeout_characterization (b : Battle) (now : Int)
    (step : StepFun) :
    (now - b.startTime > MAX_BATTLE_DURATION_MS →
        checkBattleTimeout b now =
          some ("max_duration_exceeded_" ++
            toString (roundMinutes (now - b.startTime)) ++ "m")) ∧
    (¬(now - b.startTime > MAX_BATTLE_DURATION_MS) →
      now - b.lastDamageTime > STALEMATE_REAL_TIME_MS →
        checkBattleTimeout b now =
          some ("stalemate_no_damage_" ++
            toString (roundMinutes (now - b.lastDamageTime)) ++ "m")) ∧
    (¬(now - b.startTime > MAX_BATTLE_DURATION_MS) →
      ¬(now - b.lastDamageTime > STALEMATE_REAL_TIME_MS) →
        checkBattleTimeout b now = none) ∧
    (∀ r, b.ended = false →
      now - b.lastTimeoutCheck ≥ TIMEOUT_CHECK_INTERVAL_MS →
      checkBattleTimeout b now = some r →
        (processTickBattle step now b).1.ended = true ∧
        ∃ res, (processTickBattle step now b).1.results = some res ∧
          res.error = some r) := by
  refine ⟨?_, ?_, ?_, ?_⟩
  · intro h
    unfold checkBattleTimeout
    rw [if_pos h]
  · intro h1 h2
    unfold checkBattleTimeout
    rw [if_neg h1, if_pos h2]
  · intro h1 h2
    unfold checkBattleTimeout
    rw [if_neg h1, if_neg h2]
  · intro r hne hgate hr
    rw [timeout_ends_battle step now b r hne hgate hr]
    exact ⟨rfl, _, rfl, rfl⟩

/-- C3 witness: concrete verdicts at the three boundary situations and the
force-end at a stalemate reason. -/
theorem checkBattleTimeout_characterization_witness :
    (2000000 - sampleBattleIdle.startTime > MAX_BATTLE_DURATION_MS ∧
      checkBattleTimeout sampleBattleIdle 2000000 =
        some "max_duration_exceeded_33m") ∧
    (¬(400000 - sampleBattleIdle.startTime > MAX_BATTLE_DURATION_MS) ∧
      400000 - sampleBattleIdle.lastDamageTime > STALEMATE_REAL_TIME_MS ∧
      checkBattleTimeout sampleBattleIdle 400000 =
        some "stalemate_no_damage_7m") ∧
    (¬(100000 - sampleBattleIdle.startTime > MAX_BATTLE_DURATION_MS) ∧
      ¬(100000 - sampleBattleIdle.lastDamageTime > STALEMATE_REAL_TIME_MS) ∧
      checkBattleTimeout sampleBattleIdle 100000 = none) ∧
    (processTickBattle sampleOkStep 400000 sampleBattleIdle).1.ended = true := by
  refine ⟨⟨by decide, ?_⟩, ⟨by decide, by decide, ?_⟩, ⟨by decide, by decide, ?_⟩, ?_⟩
  · exact (checkBattleTimeout_characterization sampleBattleIdle 2000000
      sampleOkStep).1 (by decide)
  · exact ((checkBattleTimeout_characterization sampleBattleIdle 400000
      sampleOkStep).2.1) (by decide) (by decide)
  · exact ((checkBattleTimeout_characterization sampleBattleIdle 100000
      sampleOkStep).2.2.1) (by decide) (by decide)
  · exact (((checkBattleTimeout_characterization sampleBattleIdle 400000
      sampleOkStep).2.2.2) "stalemate_no_damage_7m" (by decide) (by decide)
      (by decide)).1

/-- C4: finalization is idempotent — on a battle already flagged ended,
`endBattle` returns the battle unchanged (results included), publishes no
second concluded event and schedules no second purge; and any `endBattle`
leaves the ended flag true, so a repeated finalization is always such a
no-op. -/
theorem endBattle_idempotent (b : Battle) (err err2 : Option String)
    (now now2 : Int) :
    (b.ended = true → endBattle b err now = (b, [], [])) ∧
    (endBattle b err now).1.ended = true ∧
    endBattle (endBattle b err now).1 err2 now2 =
      ((endBattle b err now).1, [], []) := by
  have h1 : b.ended = true → endBattle b err now = (b, [], []) := by
    intro h
    unfold endBattle
    rw [if_pos h]
  have h2 : (endBattle b err now).1.ended = true := by
    unfold endBattle
    split
    · assumption
    · rfl
  have hgen : ∀ b' : Battle, b'.ended = true →
      endBattle b' err2 now2 = (b', [], []) := by
    intro b' h
    unfold endBattle
    rw [if_pos h]
  exact ⟨h1, h2, hgen _ h2⟩

/-- C4 witness: ending a concrete already-ended battle is a no-op. -/
theorem endBattle_idempotent_witness :
    sampleBattleEnded.ended = true ∧
    endBattle sampleBattleEnded (some "again") 5000 =
      (sampleBattleEnded, [], []) := by
  refine ⟨by decide, ?_⟩
  exact (endBattle_idempotent sampleBattleEnded (some "again") none 5000 0).1
    (by decide)


/-- C1 counterexample: the claim that every successful external mutation
wakes an idle battle fails on `addReinforcements` — on a concrete idle,
non-ended battle it returns success yet leaves the `isIdle` flag true. -/
theorem addReinforcements_leaves_idle_counterexample :
    sampleBattleIdle.isIdle = true ∧
    sampleBattleIdle.ended = false ∧
    (sampleManager.addReinforcements "b1" [sampleRecord]).2.2.success = true ∧
    ((sampleManager.addReinforcements "b1" [sampleRecord]).1.battles.lookup
        "b1").map (fun b => b.isIdle) = some true := by
  refine ⟨rfl, rfl, ?_, ?_⟩ <;> decide

/-- C1 (amended): on a known, non-ended battle the two position-update
operations return success and leave the battle with `isIdle` false, while
`forceRetarget` and `addReinforcements` return success without modifying the
`isIdle` flag. -/
theorem mutations_wake_policy (m : BattleManager) (id : String) (b : Battle)
    (hb : m.battles.lookup id = some b) (hne : b.ended = false)
    (ups : List PositionUpdate) (uid : Nat) (x y z : Int) (ct : Bool)
    (us : List UnitRecord) :
    ((m.updateUnitPositions id ups).2.success = true ∧
      ∃ b1, (m.updateUnitPositions id ups).1.battles.lookup id = some b1 ∧
        b1.isIdle = false) ∧
    ((m.updateSingleUnitPosition id uid x y z ct).2.success = true ∧
      ∃ b2, (m.updateSingleUnitPosition id uid x y z ct).1.battles.lookup id
          = some b2 ∧ b2.isIdle = false) ∧
    ((m.forceRetarget id).2.success = true ∧
      ∃ b3, (m.forceRetarget id).1.battles.lookup id = some b3 ∧
        b3.isIdle = b.isIdle) ∧
    ((m.addReinforcements id us).2.2.success = true ∧
      ∃ b4, (m.addReinforcements id us).1.battles.lookup id = some b4 ∧
        b4.isIdle = b.isIdle) := by
  have hup : m.updateUnitPositions id ups =
      (⟨mapSet m.battles id
          { (if b.isIdle then { b with isIdle := false } else b) with
            simulator :=
              ((if b.isIdle then { b with isIdle := false } else b).simulator.update_unit_positions
                ups).1 }⟩,
       { success := true, error := none,
         updatedCount := some
           (((if b.isIdle then { b with isIdle := false } else b).simulator.update_unit_positions
             ups).2) }) := by
    unfold BattleManager.updateUnitPositions
    rw [hb]
    dsimp only
    rw [if_neg (by simp [hne])]
  have hsingle : m.updateSingleUnitPosition id uid x y z ct =
      (⟨mapSet m.battles id
          { (if b.isIdle then { b with isIdle := false } else b) with
            simulator :=
              (if b.isIdle then { b with isIdle := false } else b).simulator.update_single_unit_position
                uid x y z ct }⟩,
       { success := true, error := none, updatedCount := none }) := by
    unfold BattleManager.updateSingleUnitPosition
    rw [hb]
    dsimp only
    rw [if_neg (by simp [hne])]
  have hret : m.forceRetarget id =
      (⟨mapSet m.battles id { b with simulator := b.simulator.force_retarget }⟩,
       { success := true, error := none, updatedCount := none }) := by
    unfold BattleManager.forceRetarget
    rw [hb]
    dsimp only
    rw [if_neg (by simp [hne])]
  have hrei : m.addReinforcements id us =
      (⟨mapSet m.battles id
          { b with simulator := us.foldl (fun s u => s.add_unit u) b.simulator,
                   units := b.units ++ us.map (fun u => u.id) }⟩,
       [Event.reinforcements id b.systemId
          (us.map (fun u => (u.id, u.faction_id, u.player_id)))],
       { success := true, error := none, updatedCount := none }) := by
    unfold BattleManager.addReinforcements
    rw [hb]
    dsimp only
    rw [if_neg (by simp [hne])]
  refine ⟨⟨?_, ?_⟩, ⟨?_, ?_⟩, ⟨?_, ?_⟩, ⟨?_, ?_⟩⟩
  · rw [hup]
  · rw [hup]
    refine ⟨_, lookup_mapSet _ _ _, ?_⟩
    by_cases hbi : b.isIdle = true <;> simp [hbi]
  · rw [hsingle]
  · rw [hsingle]
    refine ⟨_, lookup_mapSet _ _ _, ?_⟩
    by_cases hbi : b.isIdle = true <;> simp [hbi]
  · rw [hret]
  · rw [hret]
    exact ⟨_, lookup_mapSet _ _ _, rfl⟩
  · rw [hrei]
  · rw [hrei]
    exact ⟨_, lookup_mapSet _ _ _, rfl⟩

/-- C1 witness: the amended policy at a concrete idle battle. -/
theorem mutations_wake_policy_witness :
    (List.lookup "b1" sampleManager.battles = some sampleBattleIdle ∧
      sampleBattleIdle.ended = false) ∧
    ((sampleManager.updateUnitPositions "b1" []).2.success = true ∧
      ∃ b1, (sampleManager.updateUnitPositions "b1" []).1.battles.lookup "b1"
          = some b1 ∧ b1.isIdle = false) ∧
    ((sampleManager.addReinforcements "b1" []).2.2.success = true ∧
      ∃ b4, (sampleManager.addReinforcements "b1" []).1.battles.lookup "b1"
          = some b4 ∧ b4.isIdle = sampleBattleIdle.isIdle) := by
  have h := mutations_wake_policy sampleManager "b1" sampleBattleIdle
    (by decide) (by decide) [] 1 0 0 0 false []
  exact ⟨⟨by decide, by decide⟩, h.1, h.2.2.2⟩

/-- C5: when the step of one battle raises, only that battle ends — with the
exception's message as the concluded reason and a published concluded event —
while the scheduler processes every battle of the same firing independently
(the map-lookup identity holds for every id), and the ended battle is inert
in all subsequent firings. -/
theorem step_failure_isolates_battle (m : BattleManager)
    (step : NamedStepFun) (now : Int) (i : String) (b : Battle) (msg : String)
    (hb : m.battles.lookup i = some b) (hne : b.ended = false)
    (hidle : b.isIdle = false)
    (hto : ¬(now - b.lastTimeoutCheck ≥ TIMEOUT_CHECK_INTERVAL_MS))
    (hstep : step i (now - b.lastTickTime) now b.simulator =
      Except.error msg) :
    (∀ j, (m.processTick step now).1.battles.lookup j =
        (m.battles.lookup j).map
          (fun bj => (processTickBattle (step j) now bj).1)) ∧
    (∃ b', (m.processTick step now).1.battles.lookup i = some b' ∧
        b'.ended = true ∧
        (∃ res, b'.results = some res ∧ res.error = some msg) ∧
        (∀ step2 now2, processTickBattle step2 now2 b' = (b', [], []))) ∧
    (∃ ev, Event.concluded ev ∈ (m.processTick step now).2.1 ∧
        ev.battleId = b.battleId ∧ ev.reason = msg) := by
  have hne1 : ({ b with lastTickTime := now } : Battle).ended = false := hne
  have hpb : processTickBattle (step i) now b =
      ({ { b with lastTickTime := now } with
            ended := true
            results := some (finalResults { b with lastTickTime := now }
              (some msg) now) },
       [Event.concluded (concludedOf { b with lastTickTime := now }
          (some msg) now)],
       [({ b with lastTickTime := now } : Battle).battleId]) := by
    rw [processTickBattle_step_error (step i) now b msg hne hidle hto hstep]
    exact endBattle_of_not_ended _ _ _ hne1
  refine ⟨fun j => lookup_processTick m step now j, ?_, ?_⟩
  · rw [lookup_processTick m step now i, hb]
    simp only [Option.map_some']
    refine ⟨_, rfl, ?_⟩
    rw [hpb]
    exact ⟨rfl, ⟨_, rfl, rfl⟩, fun step2 now2 =>
      processTickBattle_of_ended step2 now2 _ rfl⟩
  · refine ⟨concludedOf { b with lastTickTime := now } (some msg) now,
      ?_, rfl, rfl⟩
    refine processTick_event_mem (lookup_mem hb) ?_
    rw [hpb]
    exact List.mem_cons_self _ _

/-- C5 witness: a concrete firing in which battle `b1` raises `boom` — it
ends with that reason while the lookup identity holds for the other id. -/
theorem step_failure_isolates_battle_witness :
    (List.lookup "b1" sampleManagerActive.battles = some sampleBattleActive ∧
      sampleBattleActive.ended = false ∧ sampleBattleActive.isIdle = false ∧
      ¬(5000 - sampleBattleActive.lastTimeoutCheck ≥
          TIMEOUT_CHECK_INTERVAL_MS) ∧
      sampleFailingStep "b1" (5000 - sampleBattleActive.lastTickTime) 5000
          sampleBattleActive.simulator = Except.error "boom") ∧
    (∃ b', (sampleManagerActive.processTick sampleFailingStep 5000).1.battles.lookup
        "b1" = some b' ∧ b'.ended = true ∧
        (∃ res, b'.results = some res ∧ res.error = some "boom") ∧
        (∀ step2 now2, processTickBattle step2 now2 b' = (b', [], []))) := by
  have h := step_failure_isolates_battle sampleManagerActive sampleFailingStep
    5000 "b1" sampleBattleActive "boom" (by decide) (by decide) (by decide)
    (by decide) rfl
  exact ⟨⟨by decide, by decide, by decide, by decide, rfl⟩, h.2.1⟩

/-- C6: the concluded event published at finalization: its survivors and
casualties are the ids of the alive resp. dead units of the final snapshot
(together a permutation of all snapshot ids), and its victor is the faction
`f` exactly when some alive unit has faction `f` and every alive unit does —
and null otherwise. -/
theorem concluded_event_contents (b : Battle) (err : Option String)
    (now : Int) (hne : b.ended = false) :
    (endBattle b err now).2.1 = [Event.concluded (concludedOf b err now)] ∧
    (concludedOf b err now).survivors =
      ((b.simulator.get_results).filter (fun u => u.alive)).map
        (fun u => u.id) ∧
    (concludedOf b err now).casualties =
      ((b.simulator.get_results).filter (fun u => !u.alive)).map
        (fun u => u.id) ∧
    ((concludedOf b err now).survivors ++
        (concludedOf b err now).casualties).Perm
      ((b.simulator.get_results).map (fun u => u.id)) ∧
    (∀ f, (concludedOf b err now).victor = some f ↔
        ((∃ u ∈ b.simulator.units, u.alive = true ∧ u.faction_id = f) ∧
         ∀ u ∈ b.simulator.units, u.alive = true → u.faction_id = f)) ∧
    ((concludedOf b err now).victor = none ↔
        ¬∃ f, ((∃ u ∈ b.simulator.units, u.alive = true ∧ u.faction_id = f) ∧
          ∀ u ∈ b.simulator.units, u.alive = true → u.faction_id = f)) := by
  have hvic : ∀ f, (concludedOf b err now).victor = some f ↔
      ((∃ u ∈ b.simulator.units, u.alive = true ∧ u.faction_id = f) ∧
       ∀ u ∈ b.simulator.units, u.alive = true → u.faction_id = f) := by
    intro f
    calc (concludedOf b err now).victor = some f
        ↔ b.simulator.get_active_factions = [f] :=
          battleVictor_eq_some_iff_factions b f
      _ ↔ _ := active_factions_singleton_iff b.simulator f
  refine ⟨?_, rfl, rfl, ?_, hvic, ?_⟩
  · rw [endBattle_of_not_ended b err now hne]
  · show ((((b.simulator.get_results).filter (fun u => u.alive)).map
        (fun u => u.id)) ++
      (((b.simulator.get_results).filter (fun u => !u.alive)).map
        (fun u => u.id))).Perm _
    rw [← List.map_append]
    exact (List.filter_append_perm (fun u => u.alive)
      (b.simulator.get_results)).map (fun u => u.id)
  · constructor
    · intro hnone
      rintro ⟨f, hf⟩
      have := (hvic f).mpr hf
      rw [hnone] at this
      exact Option.noConfusion this
    · intro hnot
      cases hv : (concludedOf b err now).victor with
      | none => rfl
      | some f => exact absurd ⟨f, (hvic f).mp hv⟩ hnot

/-- C6 witness: on a concrete two-faction final snapshot the victor is null
and the survivor and casualty lists are the alive and dead ids. -/
theorem concluded_event_contents_witness :
    sampleBattleIdle.ended = false ∧
    (endBattle sampleBattleIdle none 5000).2.1 =
      [Event.concluded (concludedOf sampleBattleIdle none 5000)] ∧
    (concludedOf sampleBattleIdle none 5000).survivors = [1, 2] ∧
    (concludedOf sampleBattleIdle none 5000).casualties = [3] ∧
    (concludedOf sampleBattleIdle none 5000).victor = none := by
  refine ⟨by decide, ?_, by decide, by decide, by decide⟩
  exact (concluded_event_contents sampleBattleIdle none 5000 (by decide)).1

/-- C7: every mutation operation invoked with an unknown battle id, or with
the id of an ended battle, returns a failure result carrying an error
message and leaves the manager — in particular the battle's simulator —
unchanged. -/
theorem mutations_error_path (m : BattleManager) (id : String)
    (ups : List PositionUpdate) (uid : Nat) (x y z : Int) (ct : Bool)
    (us : List UnitRecord)
    (h : m.battles.lookup id = none ∨
      ∃ b, m.battles.lookup id = some b ∧ b.ended = true) :
    m.updateUnitPositions id ups =
      (m, mutationFailure "Battle not found or ended") ∧
    m.updateSingleUnitPosition id uid x y z ct =
      (m, mutationFailure "Battle not found or ended") ∧
    m.forceRetarget id = (m, mutationFailure "Battle not found or ended") ∧
    m.addReinforcements id us =
      (m, [], mutationFailure "Battle not found or already ended") ∧
    (mutationFailure "Battle not found or ended").success = false ∧
    (mutationFailure "Battle not found or already ended").success = false := by
  rcases h with hnone | ⟨b, hb, hend⟩
  · refine ⟨?_, ?_, ?_, ?_, rfl, rfl⟩
    · unfold BattleManager.updateUnitPositions
      rw [hnone]
    · unfold BattleManager.updateSingleUnitPosition
      rw [hnone]
    · unfold BattleManager.forceRetarget
      rw [hnone]
    · unfold BattleManager.addReinforcements
      rw [hnone]
  · refine ⟨?_, ?_, ?_, ?_, rfl, rfl⟩
    · unfold BattleManager.updateUnitPositions
      rw [hb]
      dsimp only
      rw [if_pos hend]
    · unfold BattleManager.updateSingleUnitPosition
      rw [hb]
      dsimp only
      rw [if_pos hend]
    · unfold BattleManager.forceRetarget
      rw [hb]
      dsimp only
      rw [if_pos hend]
    · unfold BattleManager.addReinforcements
      rw [hb]
      dsimp only
      rw [if_pos hend]

/-- C7 witness: the error path at a concrete ended battle and at an unknown
id. -/
theorem mutations_error_path_witness :
    ((List.lookup "b2" sampleManager.battles).map (fun b => b.ended) =
        some true ∧
      sampleManager.updateUnitPositions "b2" [] =
        (sampleManager, mutationFailure "Battle not found or ended") ∧
      sampleManager.addReinforcements "b2" [sampleRecord] =
        (sampleManager, [],
          mutationFailure "Battle not found or already ended")) ∧
    (List.lookup "zzz" sampleManager.battles = none ∧
      sampleManager.forceRetarget "zzz" =
        (sampleManager, mutationFailure "Battle not found or ended")) := by
  have h2 := mutations_error_path sampleManager "b2" [] 1 0 0 0 false
    [sampleRecord] (Or.inr ⟨sampleBattleEnded, by decide, by decide⟩)
  have hz := mutations_error_path sampleManager "zzz" [] 1 0 0 0 false
    [sampleRecord] (Or.inl (by decide))
  exact ⟨⟨by decide, h2.1, h2.2.2.2.1⟩, ⟨by decide, hz.2.2.1⟩⟩

/-- C8: `lastDamageTime` tracking — after a processed tick it is set to the
current wall time exactly when the tick result carried a damaged or a
destroyed entry and is unchanged otherwise; a freshly started battle has
`lastDamageTime` equal to `startTime`; and one scheduler firing preserves
`startTime` and keeps `lastDamageTime` at or above it. -/
theorem lastDamageTime_tracking (step : StepFun) (now : Int) (b : Battle)
    (sim2 : WasmBattleSimulator) (tr : TickResult) (m : BattleManager)
    (id : String) (sid : Int) (us : List UnitRecord) (t0 : Int)
    (hstep : step (now - b.lastTickTime) now b.simulator =
      Except.ok (sim2, tr))
    (hinv : b.startTime ≤ b.lastDamageTime) (hnow : b.startTime ≤ now) :
    ((tr.damaged = [] ∧ tr.destroyed = []) →
        (runStep step now b).1.lastDamageTime = b.lastDamageTime) ∧
    ((tr.damaged ≠ [] ∨ tr.destroyed ≠ []) →
        (runStep step now b).1.lastDamageTime = now) ∧
    (∃ nb, (m.startBattle id sid us t0).1.battles.lookup id = some nb ∧
        nb.lastDamageTime = nb.startTime) ∧
    ((processTickBattle step now b).1.startTime = b.startTime ∧
      (processTickBattle step now b).1.startTime ≤
        (processTickBattle step now b).1.lastDamageTime) := by
  refine ⟨?_, ?_, ?_, ?_, ?_⟩
  · rintro ⟨hd, hdd⟩
    simp only [runStep, hstep]
    rw [if_neg (by simp [hd, hdd] :
      ¬(tr.damaged.length > 0 ∨ tr.destroyed.length > 0))]
    repeat' split
    all_goals
      first
        | rfl
        | (rw [endBattle_lastDamageTime])
  · intro hor
    have hpos : tr.damaged.length > 0 ∨ tr.destroyed.length > 0 := by
      rcases hor with h | h
      · exact Or.inl (List.length_pos.mpr h)
      · exact Or.inr (List.length_pos.mpr h)
    simp only [runStep, hstep]
    rw [if_pos hpos]
    repeat' split
    all_goals
      first
        | rfl
        | (rw [endBattle_lastDamageTime])
  · unfold BattleManager.startBattle
    dsimp only
    exact ⟨_, lookup_mapSet _ _ _, rfl⟩
  · exact processTickBattle_startTime step now b
  · rcases processTickBattle_lastDamageTime_cases step now b with h | h <;>
      rw [processTickBattle_startTime, h]
    · exact hnow
    · exact hinv

/-- C8 witness: a concrete damaging tick stamps `lastDamageTime` with the
wall clock, and a freshly started battle has it equal to `startTime`. -/
theorem lastDamageTime_tracking_witness :
    (sampleBattleActive.startTime ≤ sampleBattleActive.lastDamageTime ∧
      sampleBattleActive.startTime ≤ 5000 ∧
      sampleTickResult.damaged ≠ []) ∧
    (runStep sampleOkStep 5000 sampleBattleActive).1.lastDamageTime = 5000 ∧
    (∃ nb, ((⟨[]⟩ : BattleManager).startBattle "s" 3 [sampleRecord]
        7777).1.battles.lookup "s" = some nb ∧
      nb.lastDamageTime = nb.startTime) := by
  have h := lastDamageTime_tracking sampleOkStep 5000 sampleBattleActive
    sampleBattleActive.simulator sampleTickResult (⟨[]⟩ : BattleManager)
    "s" 3 [sampleRecord] 7777 rfl (by decide) (by decide)
  exact ⟨⟨by decide, by decide, by decide⟩,
    h.2.1 (Or.inl (by decide)), h.2.2.1⟩

/-- C9 (amended): for a known battle id the status query returns the object
with fields found, battleId, systemId, tick, duration, timeSinceLastDamage,
ended, unitCount, factions, stats and results in source order — with no
`is_idle`/`isIdle` field — and for an unknown id it returns found false. -/
theorem getBattleStatus_fields (m : BattleManager) (id : String) (now : Int) :
    (m.battles.lookup id = none →
        m.getBattleStatus id now = [("found", JsVal.bool false)]) ∧
    (∀ b, m.battles.lookup id = some b →
        m.getBattleStatus id now =
          [("found", JsVal.bool true),
           ("battleId", JsVal.str b.battleId),
           ("systemId", JsVal.num b.systemId),
           ("tick", JsVal.num (Int.ofNat b.tick)),
           ("duration", JsVal.num (now - b.startTime)),
           ("timeSinceLastDamage", JsVal.num (now - b.lastDamageTime)),
           ("ended", JsVal.bool b.ended),
           ("unitCount", JsVal.num (Int.ofNat b.units.length)),
           ("factions", JsVal.natList b.factions),
           ("stats", JsVal.statsVal b.stats),
           ("results", JsVal.resultsVal b.results)] ∧
        (m.getBattleStatus id now).lookup "isIdle" = none ∧
        (m.getBattleStatus id now).lookup "is_idle" = none) := by
  constructor
  · intro h
    unfold BattleManager.getBattleStatus
    rw [h]
  · intro b hb
    have hred : m.getBattleStatus id now =
        [("found", JsVal.bool true),
         ("battleId", JsVal.str b.battleId),
         ("systemId", JsVal.num b.systemId),
         ("tick", JsVal.num (Int.ofNat b.tick)),
         ("duration", JsVal.num (now - b.startTime)),
         ("timeSinceLastDamage", JsVal.num (now - b.lastDamageTime)),
         ("ended", JsVal.bool b.ended),
         ("unitCount", JsVal.num (Int.ofNat b.units.length)),
         ("factions", JsVal.natList b.factions),
         ("stats", JsVal.statsVal b.stats),
         ("results", JsVal.resultsVal b.results)] := by
      unfold BattleManager.getBattleStatus
      rw [hb]
    refine ⟨hred, ?_, ?_⟩ <;> rw [hred] <;> rfl

/-- C9 counterexample: on a concrete known battle — one whose `isIdle` flag
is even true — the returned status object carries no `isIdle` or `is_idle`
field, refuting the claim that the status query returns `is_idle`. -/
theorem getBattleStatus_no_isIdle_counterexample :
    (List.lookup "b1" sampleManager.battles).isSome = true ∧
    sampleBattleIdle.isIdle = true ∧
    (sampleManager.getBattleStatus "b1" 5000).lookup "isIdle" = none ∧
    (sampleManager.getBattleStatus "b1" 5000).lookup "is_idle" = none := by
  refine ⟨?_, rfl, ?_, ?_⟩ <;> decide

/-- C9 witness: the amended field list at a concrete known and a concrete
unknown battle id. -/
theorem getBattleStatus_fields_witness :
    (List.lookup "b1" sampleManager.battles = some sampleBattleIdle ∧
      sampleManager.getBattleStatus "b1" 5000 =
        [("found", JsVal.bool true),
         ("battleId", JsVal.str sampleBattleIdle.battleId),
         ("systemId", JsVal.num sampleBattleIdle.systemId),
         ("tick", JsVal.num (Int.ofNat sampleBattleIdle.tick)),
         ("duration", JsVal.num (5000 - sampleBattleIdle.startTime)),
         ("timeSinceLastDamage",
           JsVal.num (5000 - sampleBattleIdle.lastDamageTime)),
         ("ended", JsVal.bool sampleBattleIdle.ended),
         ("unitCount", JsVal.num (Int.ofNat sampleBattleIdle.units.length)),
         ("factions", JsVal.natList sampleBattleIdle.factions),
         ("stats", JsVal.statsVal sampleBattleIdle.stats),
         ("results", JsVal.resultsVal sampleBattleIdle.results)]) ∧
    (List.lookup "zzz" sampleManager.battles = none ∧
      sampleManager.getBattleStatus "zzz" 5000 =
        [("found", JsVal.bool false)]) := by
  refine ⟨⟨by decide, ?_⟩, ⟨by decide, ?_⟩⟩
  · exact ((getBattleStatus_fields sampleManager "b1" 5000).2 sampleBattleIdle
      (by decide)).1
  · exact (getBattleStatus_fields sampleManager "zzz" 5000).1 (by decide)

/-- C10: both start entry points — the socket handler and the HTTP endpoint —
reject a payload whose battleId is the empty string or whose systemId is 0
(JS falsy values) with the error `Invalid payload`, and register no battle:
the manager is returned unchanged and no event is published. -/
theorem start_rejects_falsy_payload (m : BattleManager) (p : StartPayload)
    (now : Int) (h : p.battleId = some "" ∨ p.systemId = some 0) :
    socketBattleStart m p now =
      (m, [], { success := false, battleId := none,
                error := some "Invalid payload" }) ∧
    httpBattleStart m p now =
      (m, [], HttpStartResponse.badRequest "Invalid payload") := by
  have hv : startPayloadValid p = false := by
    rcases h with h | h
    · simp [startPayloadValid, jsTruthyString, h]
    · simp [startPayloadValid, jsTruthyInt, h]
  constructor
  · unfold socketBattleStart
    rw [hv]
    rfl
  · unfold httpBattleStart
    rw [hv]
    rfl

/-- C10 witness: an empty-string battleId and a zero systemId are both
refused at concrete payloads, leaving the manager empty. -/
theorem start_rejects_falsy_payload_witness :
    ((⟨some "", some 5, some []⟩ : StartPayload).battleId = some "" ∧
      socketBattleStart ⟨[]⟩ ⟨some "", some 5, some []⟩ 99 =
        (⟨[]⟩, [], { success := false, battleId := none,
                     error := some "Invalid payload" })) ∧
    ((⟨some "battle-9", some 0, some [sampleRecord]⟩ :
        StartPayload).systemId = some 0 ∧
      httpBattleStart ⟨[]⟩ ⟨some "battle-9", some 0, some [sampleRecord]⟩ 99 =
        (⟨[]⟩, [], HttpStartResponse.badRequest "Invalid payload")) := by
  refine ⟨⟨rfl, ?_⟩, ⟨rfl, ?_⟩⟩
  · exact (start_rejects_falsy_payload ⟨[]⟩ ⟨some "", some 5, some []⟩ 99
      (Or.inl rfl)).1
  · exact (start_rejects_falsy_payload ⟨[]⟩
      ⟨some "battle-9", some 0, some [sampleRecord]⟩ 99 (Or.inr rfl)).2

end BattleServer
